import Mathlib

/-!
Shallow embedding of `cosmic-applet-usage` (src/app.rs, src/config.rs).

The applet keeps a `Config` of three booleans (which metrics are shown),
a `UsageInfo` of the latest sampled values, and an optional tracked popup
window id.  A background sampler task reads CPU / memory / swap utilization
from the OS once per second and emits a `UsageUpdate` message; the single
threaded `update` function applies the four message kinds.  Floating point
values (`f32` in the source) are modelled as rationals `ℚ`; `window::Id`
values are modelled as naturals drawn from a fresh-id counter; the external
side effects of `update` (persistence writes, popup creation/destruction,
broadcast sends to the sampler) are reified as an explicit effect list.
-/

/-- src/config.rs: the persisted configuration, three independent booleans.
Rust `#[derive(Default)]` makes every field `false`. -/
structure Config where
  cpu_enabled : Bool
  memory_enabled : Bool
  swap_enabled : Bool
deriving DecidableEq

instance : Inhabited Config := ⟨⟨false, false, false⟩⟩

/-- src/app.rs `UsageInfo`: latest sampled values (f32 modelled as ℚ).
Rust `#[derive(Default)]` zero-initializes all three. -/
structure UsageInfo where
  cpu : ℚ
  memory : ℚ
  swap : ℚ
deriving DecidableEq

instance : Inhabited UsageInfo := ⟨⟨0, 0, 0⟩⟩

/-- src/app.rs `UsageElement`. -/
inductive UsageElement
  | cpu
  | memory
  | swap
deriving DecidableEq

/-- The payload of `Message::UsageUpdate`: an optional fresh value per metric
(`None` = "not recomputed this tick, do not overwrite"). -/
structure UsageUpdateMsg where
  cpu : Option ℚ
  mem : Option ℚ
  swap : Option ℚ
deriving DecidableEq

/-- src/app.rs `Message`: the four message kinds handled by `update`. -/
inductive Message
  | updateConfig (c : Config)
  | usageUpdate (u : UsageUpdateMsg)
  | togglePopup
  | toggleElement (e : UsageElement)
deriving DecidableEq

/-- src/app.rs `UsageApp` state (the parts mutated by `update`): the runtime
`core` handle is external; `window::Id::unique()` is modelled by the
fresh-id counter `nextId`. -/
structure UsageApp where
  config : Config
  usage_info : UsageInfo
  popup : Option ℕ
  nextId : ℕ
deriving DecidableEq

/-- The externally visible side effects of one `update` step. -/
inductive Effect
  | writeConfig (c : Config)
  | destroyPopup (id : ℕ)
  | createPopup (id : ℕ)
  | broadcastSend (e : UsageElement) (enabled : Bool)
deriving DecidableEq

/-- The `Message::UsageUpdate` arm of `update`: each `Some` field overwrites
the stored value, each `None` field leaves it untouched. -/
def applyUsageUpdate (info : UsageInfo) (u : UsageUpdateMsg) : UsageInfo :=
  let info := match u.cpu with
    | some v => { info with cpu := v }
    | none => info
  let info := match u.mem with
    | some v => { info with memory := v }
    | none => info
  match u.swap with
    | some v => { info with swap := v }
    | none => info

/-- The `Message::ToggleElement` arm: flip the chosen flag, returning the new
config. -/
def toggleFlag (c : Config) : UsageElement → Config
  | .cpu => { c with cpu_enabled := !c.cpu_enabled }
  | .memory => { c with memory_enabled := !c.memory_enabled }
  | .swap => { c with swap_enabled := !c.swap_enabled }

/-- The new value of the flipped flag (the `enabled` local in the source). -/
def flagOf (c : Config) : UsageElement → Bool
  | .cpu => c.cpu_enabled
  | .memory => c.memory_enabled
  | .swap => c.swap_enabled

/-- src/app.rs `UsageApp::update`.  `storeOk` models whether
`cosmic_config::Config::new(APP_ID, VERSION)` returns `Ok` (the persistence
store handle is obtainable); when it does, one `write_entry` is performed
(its own failure is swallowed).  The returned list reifies the external
effects of the step. -/
def update (storeOk : Bool) (s : UsageApp) : Message → UsageApp × List Effect
  | .updateConfig c => ({ s with config := c }, [])
  | .usageUpdate u => ({ s with usage_info := applyUsageUpdate s.usage_info u }, [])
  | .togglePopup =>
      match s.popup with
      | some id => ({ s with popup := none }, [.destroyPopup id])
      | none =>
          ({ s with popup := some s.nextId, nextId := s.nextId + 1 },
           [.createPopup s.nextId])
  | .toggleElement e =>
      let config := toggleFlag s.config e
      let enabled := flagOf config e
      ({ s with config := config },
       (if storeOk then [Effect.writeConfig config] else []) ++
         [Effect.broadcastSend e enabled])

/-- Rust `as u8` on an `f32`: saturating cast, truncating toward zero
(negative values clamp to 0, values above 255 clamp to 255). -/
def asU8 (q : ℚ) : ℕ :=
  if q < 0 then 0 else min 255 ⌊q⌋.toNat

/-- A rendered panel label: which metric, and the integer the text shows. -/
structure PanelLabel where
  metric : UsageElement
  value : ℕ
deriving DecidableEq

/-- src/app.rs `UsageApp::view`: pushes a CPU label (raw value cast to u8),
then a memory label (value × 100 cast), then a swap label (value × 100
cast), each only when its flag is enabled, onto the row in that order. -/
def view (s : UsageApp) : List PanelLabel :=
  (if s.config.cpu_enabled then [⟨UsageElement.cpu, asU8 s.usage_info.cpu⟩] else []) ++
    (if s.config.memory_enabled then
      [⟨UsageElement.memory, asU8 (s.usage_info.memory * 100)⟩] else []) ++
    (if s.config.swap_enabled then
      [⟨UsageElement.swap, asU8 (s.usage_info.swap * 100)⟩] else [])

/-- The CPU sampling closure in `UsageApp::subscription`:
sum of the per-core usage percentages divided by the core count. -/
def cpuSample (cpus : List ℚ) : ℚ :=
  cpus.sum / (cpus.length : ℚ)

/-- The memory sampling closure: `1 - available_memory / total_memory`. -/
def memSample (total_memory available_memory : ℕ) : ℚ :=
  1 - (available_memory : ℚ) / (total_memory : ℚ)

/-- The swap sampling closure: `1 - free_swap / total_swap`. -/
def swapSample (total_swap free_swap : ℕ) : ℚ :=
  1 - (free_swap : ℚ) / (total_swap : ℚ)

/-- The OS metrics provider state visible to one sampler tick. -/
structure SysInfo where
  cpus : List ℚ
  total_memory : ℕ
  available_memory : ℕ
  total_swap : ℕ
  free_swap : ℕ

/-- The OS queries a tick can make (`sysinfo` calls in the source). -/
inductive OsQuery
  | refreshCpu
  | readCpus
  | refreshMemory
  | readMemory
  | readSwap
deriving DecidableEq

/-- One tick of the `sysinfo-sub` sampler loop: for each enabled metric it
queries the OS and produces a `Some` value; for each disabled metric it
skips the query and produces `None`.  `refresh_memory` is shared by the
memory and swap metrics and runs when either is enabled. -/
def samplerTick (c : Config) (sys : SysInfo) : UsageUpdateMsg × List OsQuery :=
  let cpuPart : Option ℚ × List OsQuery :=
    if c.cpu_enabled then (some (cpuSample sys.cpus), [.refreshCpu, .readCpus])
    else (none, [])
  let refreshPart : List OsQuery :=
    if c.memory_enabled || c.swap_enabled then [.refreshMemory] else []
  let memPart : Option ℚ × List OsQuery :=
    if c.memory_enabled then
      (some (memSample sys.total_memory sys.available_memory), [.readMemory])
    else (none, [])
  let swapPart : Option ℚ × List OsQuery :=
    if c.swap_enabled then
      (some (swapSample sys.total_swap sys.free_swap), [.readSwap])
    else (none, [])
  ({ cpu := cpuPart.1, mem := memPart.1, swap := swapPart.1 },
   cpuPart.2 ++ refreshPart ++ memPart.2 ++ swapPart.2)

/-- How the configuration store can present itself at startup. -/
inductive ConfigStoreState
  | absent
  | loadError
  | versionMismatch
  | loaded (c : Config)
deriving DecidableEq

/-- Modelled from the spec: the external `cosmic_config` layer
(`cosmic_config::Config::new` and `Config::get_entry`, not in src/) keyed by
app id and schema version.  Per the spec, when the store is absent or its
schema version does not match, the load falls back to the all-false default
flags and no error is surfaced.  src/app.rs `init` maps an `Ok` entry
through, takes the fallback config carried by a `get_entry` error, and uses
`unwrap_or_default()` when the store handle cannot be created. -/
def loadConfig : ConfigStoreState → Config
  | .absent => default
  | .loadError => default
  | .versionMismatch => default
  | .loaded c => c

/-- src/app.rs `init`: the constructed app state from the loaded config;
`usage_info` is default-zeroed and no popup is tracked. -/
def initApp (store : ConfigStoreState) : UsageApp :=
  { config := loadConfig store
    usage_info := default
    popup := none
    nextId := 0 }

/-- Recognizes a persistence write effect. -/
def isWrite : Effect → Bool
  | .writeConfig _ => true
  | _ => false

/-- Recognizes a broadcast send on the `update_stats` channel. -/
def isBroadcast : Effect → Bool
  | .broadcastSend _ _ => true
  | _ => false

/-- Spec wording of claim C3: the arithmetic mean of the per-core
percentages rescaled into [0,1]. -/
def cpuSampleSpecScaled (cpus : List ℚ) : ℚ :=
  (cpus.sum / (cpus.length : ℚ)) / 100

/-- Folding a list of `UsageUpdate` messages through `update`. -/
def runUsageUpdates (storeOk : Bool) (s : UsageApp) (msgs : List UsageUpdateMsg) : UsageApp :=
  msgs.foldl (fun st u => (update storeOk st (Message.usageUpdate u)).1) s

example : cpuSample [10, 20, 30, 40] = 25 := by norm_num [cpuSample]
example : memSample 8000000000 2000000000 = 3 / 4 := by norm_num [memSample]
example : asU8 ((3 / 4 : ℚ) * 100) = 75 := by
  norm_num [asU8]
  decide

theorem applyUsageUpdate_cpu (info : UsageInfo) (u : UsageUpdateMsg) :
    (applyUsageUpdate info u).cpu = u.cpu.getD info.cpu := by
  obtain ⟨c, m, w⟩ := u
  cases c <;> cases m <;> cases w <;> rfl

theorem applyUsageUpdate_memory (info : UsageInfo) (u : UsageUpdateMsg) :
    (applyUsageUpdate info u).memory = u.mem.getD info.memory := by
  obtain ⟨c, m, w⟩ := u
  cases c <;> cases m <;> cases w <;> rfl

theorem applyUsageUpdate_swap (info : UsageInfo) (u : UsageUpdateMsg) :
    (applyUsageUpdate info u).swap = u.swap.getD info.swap := by
  obtain ⟨c, m, w⟩ := u
  cases c <;> cases m <;> cases w <;> rfl

theorem getLast?_cons_getD {α : Type} (v d : α) (l : List α) :
    (v :: l).getLast?.getD d = l.getLast?.getD v := by
  rw [← List.head?_reverse, ← List.head?_reverse, List.reverse_cons, List.head?_append]
  cases l.reverse.head? <;> rfl

theorem runUsageUpdates_usage_info (storeOk : Bool) (s : UsageApp)
    (msgs : List UsageUpdateMsg) :
    (runUsageUpdates storeOk s msgs).usage_info =
      msgs.foldl applyUsageUpdate s.usage_info := by
  induction msgs generalizing s with
  | nil => rfl
  | cons u rest ih =>
      simpa [runUsageUpdates, update] using ih { s with usage_info := applyUsageUpdate s.usage_info u }

theorem foldl_applyUsageUpdate_cpu (info : UsageInfo) (msgs : List UsageUpdateMsg) :
    (msgs.foldl applyUsageUpdate info).cpu =
      ((msgs.filterMap UsageUpdateMsg.cpu).getLast?).getD info.cpu := by
  induction msgs generalizing info with
  | nil => rfl
  | cons u rest ih =>
      rw [List.foldl_cons, ih, List.filterMap_cons]
      cases hc : u.cpu with
      | none => rw [applyUsageUpdate_cpu, hc]; rfl
      | some v => rw [applyUsageUpdate_cpu, hc, getLast?_cons_getD]; rfl

theorem foldl_applyUsageUpdate_memory (info : UsageInfo) (msgs : List UsageUpdateMsg) :
    (msgs.foldl applyUsageUpdate info).memory =
      ((msgs.filterMap UsageUpdateMsg.mem).getLast?).getD info.memory := by
  induction msgs generalizing info with
  | nil => rfl
  | cons u rest ih =>
      rw [List.foldl_cons, ih, List.filterMap_cons]
      cases hc : u.mem with
      | none => rw [applyUsageUpdate_memory, hc]; rfl
      | some v => rw [applyUsageUpdate_memory, hc, getLast?_cons_getD]; rfl

theorem foldl_applyUsageUpdate_swap (info : UsageInfo) (msgs : List UsageUpdateMsg) :
    (msgs.foldl applyUsageUpdate info).swap =
      ((msgs.filterMap UsageUpdateMsg.swap).getLast?).getD info.swap := by
  induction msgs generalizing info with
  | nil => rfl
  | cons u rest ih =>
      rw [List.foldl_cons, ih, List.filterMap_cons]
      cases hc : u.swap with
      | none => rw [applyUsageUpdate_swap, hc]; rfl
      | some v => rw [applyUsageUpdate_swap, hc, getLast?_cons_getD]; rfl

/-- C1: for every configuration of the three display flags and every stored
`UsageInfo`, the panel view renders a label for a metric if and only if that
metric's flag is true, and the rendered labels appear in the fixed order
CPU, Memory, Swap. -/
theorem claim_C1_panel_labels_iff_enabled (s : UsageApp) :
    ((∃ v, PanelLabel.mk UsageElement.cpu v ∈ view s) ↔ s.config.cpu_enabled = true) ∧
    ((∃ v, PanelLabel.mk UsageElement.memory v ∈ view s) ↔ s.config.memory_enabled = true) ∧
    ((∃ v, PanelLabel.mk UsageElement.swap v ∈ view s) ↔ s.config.swap_enabled = true) ∧
    List.Sublist ((view s).map PanelLabel.metric)
      [UsageElement.cpu, UsageElement.memory, UsageElement.swap] := by
  obtain ⟨⟨cc, cm, cw⟩, i, p, n⟩ := s
  cases cc <;> cases cm <;> cases cw <;>
    simp [view, List.Sublist.cons, List.Sublist.cons₂, List.nil_sublist]

/-- C2: over any sequence of `UsageUpdate` messages applied by `update`,
each stored field of `UsageInfo` equals the most recent `Some` value
delivered for that field (the last element of the present values), and
fields carried as `None` leave the stored value unchanged, never resetting
it. -/
theorem claim_C2_usage_update_last_present (storeOk : Bool) (s : UsageApp)
    (msgs : List UsageUpdateMsg) :
    (runUsageUpdates storeOk s msgs).usage_info.cpu =
        ((msgs.filterMap UsageUpdateMsg.cpu).getLast?).getD s.usage_info.cpu ∧
    (runUsageUpdates storeOk s msgs).usage_info.memory =
        ((msgs.filterMap UsageUpdateMsg.mem).getLast?).getD s.usage_info.memory ∧
    (runUsageUpdates storeOk s msgs).usage_info.swap =
        ((msgs.filterMap UsageUpdateMsg.swap).getLast?).getD s.usage_info.swap := by
  rw [runUsageUpdates_usage_info]
  exact ⟨foldl_applyUsageUpdate_cpu _ _, foldl_applyUsageUpdate_memory _ _,
    foldl_applyUsageUpdate_swap _ _⟩

/-- C3 counterexample: on per-core usages [10, 20, 30, 40] the code's CPU
sample is the plain arithmetic mean 25 of the percentages, not that mean
rescaled into [0,1] (which would be 1/4), so the sampled value cannot both
be "the arithmetic mean scaled to [0,1]" and 25.0 as the claim states. -/
theorem claim_C3_counterexample :
    cpuSample [10, 20, 30, 40] = 25 ∧
    cpuSampleSpecScaled [10, 20, 30, 40] = 1 / 4 ∧
    cpuSample [10, 20, 30, 40] ≠ cpuSampleSpecScaled [10, 20, 30, 40] := by
  refine ⟨by norm_num [cpuSample], by norm_num [cpuSampleSpecScaled], ?_⟩
  norm_num [cpuSample, cpuSampleSpecScaled]

/-- C3 (amended): the sampled CPU value is the arithmetic mean of the
per-core utilization percentages, kept on the 0–100 scale (not rescaled to
[0,1]); a tick with cpu enabled carries exactly this value, for
[10, 20, 30, 40] it is 25.0, and the panel displays 25. -/
theorem claim_C3_cpu_mean_unscaled :
    (∀ cpus : List ℚ, cpuSample cpus = cpus.sum / (cpus.length : ℚ)) ∧
    (∀ sys : SysInfo,
      (samplerTick ⟨true, false, false⟩ sys).1.cpu = some (cpuSample sys.cpus)) ∧
    cpuSample [10, 20, 30, 40] = 25 ∧
    PanelLabel.mk UsageElement.cpu 25 ∈
      view { config := ⟨true, false, false⟩
             usage_info := { cpu := cpuSample [10, 20, 30, 40], memory := 0, swap := 0 }
             popup := none
             nextId := 0 } := by
  refine ⟨fun cpus => rfl, fun sys => rfl, by norm_num [cpuSample], ?_⟩
  have h : cpuSample [10, 20, 30, 40] = 25 := by norm_num [cpuSample]
  simp [view, h, asU8]
  decide

/-- C4: from any starting state, applying `ToggleElement` for the same
metric twice (with the persistence store handle obtainable) returns the
config to its original value, and each of the two applications emits
exactly one persistence write — two writes in total. -/
theorem claim_C4_double_toggle (s : UsageApp) (e : UsageElement) :
    (update true (update true s (Message.toggleElement e)).1
        (Message.toggleElement e)).1.config = s.config ∧
    (update true s (Message.toggleElement e)).2.countP isWrite = 1 ∧
    (update true (update true s (Message.toggleElement e)).1
        (Message.toggleElement e)).2.countP isWrite = 1 ∧
    ((update true s (Message.toggleElement e)).2 ++
        (update true (update true s (Message.toggleElement e)).1
          (Message.toggleElement e)).2).countP isWrite = 2 := by
  obtain ⟨⟨cc, cm, cw⟩, i, p, n⟩ := s
  cases e <;> simp [update, toggleFlag, flagOf, isWrite, List.countP_cons, List.countP_append]

/-- C5: `TogglePopup` strictly alternates the popup between open and
closed: one application flips whether an id is tracked, two applications
restore it; when an id is tracked that popup is destroyed and the tracked
id cleared, otherwise a fresh popup is created and its id recorded.  (The
`popup : Option` field holds at most one id by construction.) -/
theorem claim_C5_toggle_popup_alternates (storeOk : Bool) (s : UsageApp) :
    (update storeOk s Message.togglePopup).1.popup.isSome = !s.popup.isSome ∧
    (update storeOk (update storeOk s Message.togglePopup).1
        Message.togglePopup).1.popup.isSome = s.popup.isSome ∧
    (update storeOk s Message.togglePopup).1.popup =
      (match s.popup with | some _ => none | none => some s.nextId) ∧
    (update storeOk s Message.togglePopup).2 =
      (match s.popup with
       | some id => [Effect.destroyPopup id]
       | none => [Effect.createPopup s.nextId]) := by
  obtain ⟨c, i, p, n⟩ := s
  cases p <;> simp [update]

/-- C6: on a tick the sampled memory usage is `1 − available/total` and the
sampled swap usage is `1 − free/total` exactly when the respective flag is
enabled; the panel shows the value × 100 truncated to an integer, so total
memory 8000000000 with 2000000000 available samples as 3/4 and is displayed
as 75. -/
theorem claim_C6_memory_swap_ratio (c : Config) (sys : SysInfo) :
    (samplerTick c sys).1.mem =
      (if c.memory_enabled then
        some (1 - (sys.available_memory : ℚ) / (sys.total_memory : ℚ)) else none) ∧
    (samplerTick c sys).1.swap =
      (if c.swap_enabled then
        some (1 - (sys.free_swap : ℚ) / (sys.total_swap : ℚ)) else none) ∧
    memSample 8000000000 2000000000 = 3 / 4 ∧
    PanelLabel.mk UsageElement.memory 75 ∈
      view { config := ⟨false, true, false⟩
             usage_info := { cpu := 0
                             memory := memSample 8000000000 2000000000
                             swap := 0 }
             popup := none
             nextId := 0 } := by
  have hm : memSample 8000000000 2000000000 = 3 / 4 := by norm_num [memSample]
  refine ⟨?_, ?_, hm, ?_⟩
  · cases hc : c.memory_enabled <;> simp [samplerTick, memSample, hc]
  · cases hc : c.swap_enabled <;> simp [samplerTick, swapSample, hc]
  have h75 : asU8 (memSample 8000000000 2000000000 * 100) = 75 := by
    rw [hm]
    norm_num [asU8]
    decide
  simp [view, h75]

/-- C7: on every sampler tick, a metric's value in the emitted message is
present exactly when that metric is enabled in the sampler's current
config; the per-metric OS reads happen exactly for enabled metrics, with
the shared `refresh_memory` call made exactly when memory or swap is
enabled. -/
theorem claim_C7_tick_presence_iff_enabled (c : Config) (sys : SysInfo) :
    (samplerTick c sys).1.cpu.isSome = c.cpu_enabled ∧
    (samplerTick c sys).1.mem.isSome = c.memory_enabled ∧
    (samplerTick c sys).1.swap.isSome = c.swap_enabled ∧
    (OsQuery.refreshCpu ∈ (samplerTick c sys).2 ↔ c.cpu_enabled = true) ∧
    (OsQuery.readCpus ∈ (samplerTick c sys).2 ↔ c.cpu_enabled = true) ∧
    (OsQuery.readMemory ∈ (samplerTick c sys).2 ↔ c.memory_enabled = true) ∧
    (OsQuery.readSwap ∈ (samplerTick c sys).2 ↔ c.swap_enabled = true) ∧
    (OsQuery.refreshMemory ∈ (samplerTick c sys).2 ↔
      (c.memory_enabled || c.swap_enabled) = true) := by
  obtain ⟨cc, cm, cw⟩ := c
  cases cc <;> cases cm <;> cases cw <;> simp [samplerTick]

/-- C8: when the configuration store is absent, fails to load, or has a
schema-version mismatch, startup initializes the display flags to the
all-false default (and `init` returns a plain state, surfacing no error). -/
theorem claim_C8_init_fallback_defaults :
    (initApp ConfigStoreState.absent).config =
      { cpu_enabled := false, memory_enabled := false, swap_enabled := false } ∧
    (initApp ConfigStoreState.loadError).config =
      { cpu_enabled := false, memory_enabled := false, swap_enabled := false } ∧
    (initApp ConfigStoreState.versionMismatch).config =
      { cpu_enabled := false, memory_enabled := false, swap_enabled := false } ∧
    (∀ store : ConfigStoreState,
      (initApp store).usage_info = ⟨0, 0, 0⟩ ∧ (initApp store).popup = none) := by
  refine ⟨rfl, rfl, rfl, fun store => ⟨rfl, rfl⟩⟩

/-- C9: `UpdateConfig` only replaces the stored config and emits no effect
at all — in particular nothing on the `update_stats` broadcast channel —
while across all message kinds a broadcast send is emitted exactly by
`ToggleElement` (once). -/
theorem claim_C9_broadcast_only_on_toggle (storeOk : Bool) (s : UsageApp)
    (c : Config) (m : Message) :
    (update storeOk s (Message.updateConfig c)).1 = { s with config := c } ∧
    (update storeOk s (Message.updateConfig c)).2 = [] ∧
    (update storeOk s m).2.countP isBroadcast =
      (match m with | Message.toggleElement _ => 1 | _ => 0) := by
  refine ⟨rfl, rfl, ?_⟩
  obtain ⟨cc, i, p, n⟩ := s
  cases m with
  | updateConfig c => rfl
  | usageUpdate u => rfl
  | togglePopup => cases p <;> simp [update, isBroadcast]
  | toggleElement e =>
      cases storeOk <;> simp [update, isBroadcast, List.countP_cons, List.countP_append]

/-- C10: each message kind mutates only its own part of the state:
`UsageUpdate` leaves the config and tracked popup id unchanged,
`ToggleElement` leaves the usage info and tracked popup id unchanged,
`TogglePopup` leaves the config and usage info unchanged, and
`UpdateConfig` leaves the usage info and tracked popup id unchanged. -/
theorem claim_C10_frame_conditions (storeOk : Bool) (s : UsageApp)
    (u : UsageUpdateMsg) (c : Config) (e : UsageElement) :
    ((update storeOk s (Message.usageUpdate u)).1.config = s.config ∧
      (update storeOk s (Message.usageUpdate u)).1.popup = s.popup) ∧
    ((update storeOk s (Message.toggleElement e)).1.usage_info = s.usage_info ∧
      (update storeOk s (Message.toggleElement e)).1.popup = s.popup) ∧
    ((update storeOk s Message.togglePopup).1.config = s.config ∧
      (update storeOk s Message.togglePopup).1.usage_info = s.usage_info) ∧
    ((update storeOk s (Message.updateConfig c)).1.usage_info = s.usage_info ∧
      (update storeOk s (Message.updateConfig c)).1.popup = s.popup) := by
  obtain ⟨cc, i, p, n⟩ := s
  cases p <;> simp [update]
